import Mathlib

/-!
Verification development for the Mininet smart-campus experiment controller
(`mininet_smart_campus_experiment.py`).  The Python source is shallowly
embedded: pure computations become Lean functions, the stateful phases of a
run become explicit state passing over small event traces, and fallible code
(Python exceptions such as `IndexError` / `NotImplementedError`) returns
`Except`.  External collaborators that are not part of the repository under
`src/` (the SDN topology adapter, the `NetworkxSdnTopology` graph queries and
configuration constants) are passed in as explicit parameters, so theorems
quantify over them.
-/

namespace RideExp

/-- Error kinds raised by the embedded Python code paths. -/
inductive PyErr where
  | indexError
  | notImplementedError
  deriving DecidableEq

instance : DecidableEq (Except PyErr Unit) := fun a b =>
  match a, b with
  | Except.ok (), Except.ok () => isTrue rfl
  | Except.error e1, Except.error e2 =>
      if h : e1 = e2 then isTrue (h ▸ rfl)
      else isFalse (fun hc => h (Except.error.inj hc))
  | Except.ok _, Except.error _ => isFalse (fun hc => Except.noConfusion hc)
  | Except.error _, Except.ok _ => isFalse (fun hc => Except.noConfusion hc)

/-- Match predicates handed to the controller adapter
(`build_matches` / the `add_matches` argument of
`build_flow_rules_from_path`): optional UDP source/destination ports and
optional IPv4 source/destination addresses, the only keys the experiment
uses. -/
structure Matches where
  udp_src : Option Nat
  udp_dst : Option Nat
  ipv4_src : Option String
  ipv4_dst : Option String
  deriving DecidableEq

/-- The `add_matches=None` default of `build_flow_rules_from_path`. -/
def emptyMatches : Matches := ⟨none, none, none, none⟩

/-- Concrete carrier for the opaque flow rules produced by the controller
adapter.  The experiment never inspects rules, it only forwards them to
`install_flow_rules`, so theorems quantify over the adapter's rule-building
function; this record merely gives witnesses something concrete to build. -/
structure FlowRule where
  path : List String
  ruleMatches : Matches
  priority : Nat
  deriving DecidableEq

/-! ### C5 : the multicast address pool (`__init__`, lines 128-132)

`self.mcast_address_pool = [(str(base_addr + i), MULTICAST_ALERT_BASE_SRC_PORT + i)
                            for i in range(kwargs['ntrees'])]`

`base_addr` is an `ipaddress.IPv4Address`; addition produces another address
and `str` renders it in dotted-quad form.  `str` is injective on IPv4
addresses (parsing inverts it), so the pool is embedded at the numeric layer:
an address is its 32-bit numeric value (`Nat`), and distinctness of the
rendered strings is exactly distinctness of these numbers.  (Python raises
`AddressValueError` instead of wrapping on overflow, so numeric addition on
`Nat` is faithful wherever the constructor succeeds.) -/

/-- Embedding of the pool construction: element `i` pairs the base address
advanced by `i` with the base alert source port advanced by `i`. -/
def mcast_address_pool (baseAddr basePort ntrees : Nat) : List (Nat × Nat) :=
  (List.range ntrees).map (fun i => (baseAddr + i, basePort + i))

/-! ### C8 : `setup_topology`, cloud section (lines 254-271)

The emulation driver (`Mininet`) is modelled as the lists of host names,
switch names and links it has been asked to create; `addHost`/`addSwitch`/
`addLink` append.  The cloud loop adds, per cloud: when `with_cloud` is set,
a cloud edge switch, the host `'h' + cloud` and the link between them;
otherwise it calls `net.addHost(cloud)` twice in a row (lines 270-271). -/

/-- State of the emulated network builder. -/
structure Net where
  hosts : List String
  switches : List String
  links : List (String × String)
  deriving DecidableEq

def addHost (net : Net) (h : String) : Net :=
  ⟨net.hosts ++ [h], net.switches, net.links⟩

def addSwitch (net : Net) (s : String) : Net :=
  ⟨net.hosts, net.switches ++ [s], net.links⟩

def addLink (net : Net) (a b : String) : Net :=
  ⟨net.hosts, net.switches, net.links ++ [(a, b)]⟩

/-- Embedding of the `for cloud in self.topo.get_clouds():` loop of
`setup_topology`.  The switch keeps the cloud's name (the DPID rewriting is
irrelevant to the emulated node lists) and the attached host is `"h" ++
cloud`, exactly as in the source. -/
def setupClouds (net : Net) (clouds : List String) (with_cloud : Bool) : Net :=
  clouds.foldl
    (fun n cloud =>
      if with_cloud then
        let n := addSwitch n cloud
        let n := addHost n ("h" ++ cloud)
        addLink n cloud ("h" ++ cloud)
      else
        -- lines 270-271: `self.net.addHost(cloud)` and then
        -- `self.cloud = self.net.addHost(cloud)` — two additions.
        addHost (addHost n cloud) cloud)
    net

/-! ### C1 / C10 : the fault scheduler (`run_experiment`, lines 486-540, and
the `data_path_links` property, lines 1160-1167)

A data-path link is the pair `(gateway switch name, cloud switch name)`.
`run_experiment` sorts these pairs (Python tuple `sorted`, i.e. ascending
lexicographic order on the string pair), builds the planned change list, and
then executes it: sleeping each change's delay, toggling the link and
recording `(gateway, status, wall-clock time)`.  The wall clock is modelled
by a start time `t0` and a nonnegative per-step processing delay `eps i`
added on top of the slept delay. -/

/-- A `(gateway switch name, cloud switch name)` pair. -/
abbrev DataPathLink := String × String

/-- Lexicographic order on string pairs: the order Python's `sorted` uses on
tuples of strings. -/
def dplLe (a b : DataPathLink) : Prop :=
  a.1 < b.1 ∨ (a.1 = b.1 ∧ a.2 ≤ b.2)

instance : DecidableRel dplLe := fun a b =>
  decidable_of_iff (a.1 < b.1 ∨ (a.1 = b.1 ∧ a.2 ≤ b.2)) Iff.rfl

instance : IsTotal DataPathLink dplLe :=
  ⟨by
    intro a b
    rcases lt_trichotomy a.1 b.1 with h | h | h
    · exact Or.inl (Or.inl h)
    · rcases le_total a.2 b.2 with h2 | h2
      · exact Or.inl (Or.inr ⟨h, h2⟩)
      · exact Or.inr (Or.inr ⟨h.symm, h2⟩)
    · exact Or.inr (Or.inl h)⟩

instance : IsTrans DataPathLink dplLe :=
  ⟨by
    intro a b c hab hbc
    rcases hab with h1 | ⟨h1, h1le⟩
    · rcases hbc with h2 | ⟨h2, _⟩
      · exact Or.inl (h1.trans h2)
      · exact Or.inl (h1.trans_eq h2)
    · rcases hbc with h2 | ⟨h2, h2le⟩
      · exact Or.inl (h1.trans_lt h2)
      · exact Or.inr ⟨h1.trans h2, h1le.trans h2le⟩⟩

/-- Embedding of `sorted(self.data_path_links)`.  Python's `sorted` returns
the unique ascending reordering; `dplLe` is total, transitive and
antisymmetric on string pairs, so any sorted permutation is that unique
reordering. -/
def sortedDPLinks (dps : List DataPathLink) : List DataPathLink :=
  List.insertionSort dplLe dps

/-- The link-status strings used by `configLinkStatus`. -/
def statusDown : String := "down"

def statusUp : String := "up"

/-- One planned data-path change:
`(cloud_gw, cloud_switch, new_status, delay)` as iterated over at line 505. -/
structure DPChange where
  gw : String
  sw : String
  status : String
  delay : Nat
  deriving DecidableEq

/-- Embedding of lines 494-499: build
`[(dp, down, T) for dp in sorted(dps)[1:]]`, insert `(sorted(dps)[0], down, 0)`
at the front and append `(sorted(dps)[0], up, T)`.  `sorted(dps)[0]` raises
`IndexError` on an empty collection, hence the `Option`. -/
def data_path_changes (dps : List DataPathLink) (T : Nat) : Option (List DPChange) :=
  let s := sortedDPLinks dps
  let changes := (s.drop 1).map (fun dpl => DPChange.mk dpl.1 dpl.2 statusDown T)
  match s.head? with
  | none => none
  | some first =>
      some ((DPChange.mk first.1 first.2 statusDown 0 :: changes)
        ++ [DPChange.mk first.1 first.2 statusUp T])

/-- The schedule shape stated by the specification:
`[(dp[0], down, 0)] + [(dp[i], down, T) for i in 1..n-1] + [(dp[0], up, T)]`,
expressed over an already-sorted link list. -/
def plannedChanges : List DataPathLink → Nat → List DPChange
  | [], _ => []
  | dp0 :: rest, T =>
      (DPChange.mk dp0.1 dp0.2 statusDown 0
          :: rest.map (fun d => DPChange.mk d.1 d.2 statusDown T))
        ++ [DPChange.mk dp0.1 dp0.2 statusUp T]

/-- Embedding of the execution loop (lines 505-513): sleep the change's
delay, read the wall clock, record `(cloud_gw, new_status, dp_change_time)`.
`t` is the current wall-clock time and `eps i ` the extra nonnegative time
iteration `i` spends beyond its sleep. -/
def executeChanges (eps : Nat → Nat) : List DPChange → Nat → Nat → List (String × String × Nat)
  | [], _, _ => []
  | c :: rest, t, i =>
      (c.gw, c.status, t + c.delay + eps i)
        :: executeChanges eps rest (t + c.delay + eps i) (i + 1)

/-- Events of the fault-injection phase of `run_experiment`: the schedule is
built (lines 494-499) and executed, then the result dict is returned (line
536).  Process launches are `SetupEvent.launch` events of the
`setup_seismic_test` trace that precedes this phase. -/
inductive RunEvent where
  | executeSchedule (sched : List DPChange)
  | returnResult
  deriving DecidableEq

/-- Embedding of the `data_path_links` property (lines 1160-1167): the list
`[(gw.name, self.cloud_switches[0].name) for gw in self.cloud_gateways]`,
where `self.cloud_switches[0]` raises `IndexError` when no cloud switch
exists and the comprehension evaluates it once per gateway. -/
def data_path_links (gws cloudSwitches : List String) : Except PyErr (List DataPathLink) :=
  match gws with
  | [] => Except.ok []
  | gw :: rest =>
      match cloudSwitches.head? with
      | none => Except.error PyErr.indexError
      | some c =>
          match data_path_links rest cloudSwitches with
          | Except.ok l => Except.ok ((gw, c) :: l)
          | Except.error e => Except.error e


/-! ### C2 / C7 : the convergence retry loop (`run_experiment`, lines 431-465)

The loop compares the controller adapter's topology view against the
expectations computed from the emulation (lines 432-435) and repeats until
hosts, links and switches all match.  The adapter's answers across
iterations are an oracle `views : Nat → AdapterView` (the value returned by
the queries of iteration `ntries`); the loop itself is embedded with fuel —
the Python loop is unbounded, and exhausting fuel models "still running",
never success. -/

/-- Counts read from the controller adapter in one iteration (lines
443-445). -/
structure AdapterView where
  nhosts : Nat
  nlinks : Nat
  nswitches : Nat
  deriving DecidableEq

/-- Inputs of the expectation formulas of lines 432-435: `nonNatHosts` is
`len([h for h in self.net.hosts if h != self.nat])`, `tmEdges` is
`self.topo.topo.number_of_edges()`, `tmSwitches` is
`len(self.topo.get_switches())`, and the two flags are the truthiness of
`self.server` / `self.cloud` (set by `setup_topology` when the topology has
at least one server resp. cloud). -/
structure ExpectedCounts where
  nonNatHosts : Nat
  tmEdges : Nat
  tmSwitches : Nat
  serverPresent : Bool
  cloudPresent : Bool
  deriving DecidableEq

/-- `expected_nhosts = len(hosts)` (line 432). -/
def expected_nhosts (e : ExpectedCounts) : Nat := e.nonNatHosts

/-- `expected_nlinks` (line 434). -/
def expected_nlinks (e : ExpectedCounts) : Nat :=
  e.tmEdges + (if e.serverPresent then 1 else 0) + (if e.cloudPresent then 1 else 0)

/-- `expected_nswitches` (line 435). -/
def expected_nswitches (e : ExpectedCounts) : Nat :=
  e.tmSwitches + (if e.serverPresent then 1 else 0) + (if e.cloudPresent then 1 else 0)

/-- The loop variables `n_sdn_hosts` / `n_sdn_links` / `n_sdn_switches`,
initialised to `0` before the loop (lines 436-438). -/
structure ConvState where
  nh : Nat
  nl : Nat
  ns : Nat
  deriving DecidableEq

/-- Negation of the `while` condition of line 440. -/
def stateMatches (e : ExpectedCounts) (st : ConvState) : Bool :=
  st.nh == expected_nhosts e && st.nl == expected_nlinks e && st.ns == expected_nswitches e

/-- The `success` flag computed at lines 447-456 from a fresh query. -/
def viewMatches (e : ExpectedCounts) (v : AdapterView) : Bool :=
  v.nhosts == expected_nhosts e && v.nlinks == expected_nlinks e
    && v.nswitches == expected_nswitches e

/-- Observable events of one pass over the loop body: the adapter query with
its `ntries` number and outcome, the backoff sleep (line 458) and the
re-execution of `ping_hosts` (host discovery: ping plus static ARP, lines
461-463). -/
inductive ConvEvent where
  | query (ntries : Nat) (v : AdapterView) (success : Bool)
  | sleep (secs : Nat)
  | ping
  deriving DecidableEq

/-- Embedding of the retry loop.  Each iteration queries the adapter, sleeps
2 s on success and 10 s on mismatch, re-pings when `ntries % 5 == 0 and not
success`, then increments `ntries`; the loop exits when the stored counts
all match.  Returns the event trace and whether the loop exited. -/
def convLoop (e : ExpectedCounts) (views : Nat → AdapterView) :
    Nat → Nat → ConvState → List ConvEvent × Bool
  | fuel, ntries, st =>
    if stateMatches e st then ([], true)
    else
      match fuel with
      | 0 => ([], false)
      | fuel' + 1 =>
          let v := views ntries
          let s := viewMatches e v
          let r := convLoop e views fuel' (ntries + 1) ⟨v.nhosts, v.nlinks, v.nswitches⟩
          (ConvEvent.query ntries v s
              :: ConvEvent.sleep (if s then 2 else 10)
              :: ((if ntries % 5 == 0 && !s then [ConvEvent.ping] else []) ++ r.1),
            r.2)

/-- The loop as entered by `run_experiment`: `ntries = 1`, counts zeroed. -/
def runConvergence (e : ExpectedCounts) (views : Nat → AdapterView) (fuel : Nat) :
    List ConvEvent × Bool :=
  convLoop e views fuel 1 ⟨0, 0, 0⟩

/-- Phase events of `run_experiment` around the loop: the flow-programming /
application-launch phase (`setup_traffic_generators` +
`setup_seismic_test`, lines 468-474) starts only after the loop exits. -/
inductive RunPhaseEvent where
  | conv (ev : ConvEvent)
  | flowInstallPhase
  deriving DecidableEq

/-- `run_experiment` from the start of the retry loop to the start of flow
programming: `none` models a run still stuck in the (unbounded) loop. -/
def runExperimentForwardingTrace (e : ExpectedCounts) (views : Nat → AdapterView)
    (fuel : Nat) : Option (List RunPhaseEvent) :=
  match runConvergence e views fuel with
  | (evs, true) => some (evs.map RunPhaseEvent.conv ++ [RunPhaseEvent.flowInstallPhase])
  | (_, false) => none

/-- The adapter queries of a convergence trace, in order. -/
def queryList (evs : List ConvEvent) : List (Nat × AdapterView × Bool) :=
  evs.filterMap (fun ev =>
    match ev with
    | ConvEvent.query n v s => some (n, v, s)
    | _ => none)

/-! ### C3 / C4 / C6 / C9 : `setup_seismic_test` (lines 587-926) and the
constructor's comparison check (lines 84-88)

The forwarding-programming and process-launch part of `setup_seismic_test`
is embedded as a trace of events over an environment bundling the
experiment's parameters together with the external collaborators (topology
queries, DPID translation, the adapter's path/rule builders) as function
parameters.  The outcome of each `install_flow_rules` REST call is an oracle
`installOk : Nat → Bool` indexed by the call number. -/

/-- Parameters and external collaborators of `setup_seismic_test`. -/
structure SetupEnv where
  comparison : Option String
  ntrees : Nat
  with_ride_c : Bool
  with_cloud : Bool
  subscribers : List String
  sensors : List String
  originalServers : List String
  cloud_gateways : List String
  cloud_switches : List String
  topoPathW : String → String → List String
  topoPath : String → String → List String
  nodeDpid : String → String
  serverHostDpid : String
  cloudHostDpid : String
  switchDpid : String → String
  adapterPath : String → String → List String
  mergePaths : List String → List String → List String
  buildFRP : List String → Matches → Nat → List FlowRule
  subIP : String → String
  cloudIP : String
  staticPriority : Nat
  probeBasePort : Nat
  echoPort : Nat

/-- Observable events of `setup_seismic_test`: a batched
`install_flow_rules` call with its boolean result, the `log.error` emitted
when a batch returns false, and a `popen` launch of an application
process. -/
inductive SetupEvent where
  | installBatch (rules : List FlowRule) (ok : Bool)
  | logError
  | launch (who : String)
  deriving DecidableEq

/-- Trace and install-call counter threaded through the phases. -/
structure SetupSt where
  events : List SetupEvent
  nInstalls : Nat
  deriving DecidableEq

/-- One `install_flow_rules` call followed by the `log.error` of the
`if not ...` guard when it returns false. -/
def doInstall (installOk : Nat → Bool) (rules : List FlowRule) (st : SetupSt) : SetupSt :=
  ⟨st.events ++ (SetupEvent.installBatch rules (installOk st.nInstalls)
      :: (if installOk st.nInstalls then [] else [SetupEvent.logError])),
    st.nInstalls + 1⟩

/-- Line 656: `use_unicast = (self.comparison is not None and self.comparison
== 'unicast') or self.ntrees == 0`. -/
def use_unicast (env : SetupEnv) : Bool :=
  (env.comparison.isSome && env.comparison == some ("unicast")) || env.ntrees == 0

/-- The flow rules of one subscriber's static unicast route (lines 664-674):
the topology-model weighted path from the original server, translated
node-by-node to DPIDs, with the real server host's DPID prepended, expanded
by the adapter at the static priority with no extra matches. -/
def unicastRules (env : SetupEnv) (s0 sub : String) : List FlowRule :=
  env.buildFRP (env.serverHostDpid :: (env.topoPathW s0 sub).map env.nodeDpid)
    emptyMatches env.staticPriority

/-- The comparison-configs section (lines 656-683): the unicast arm installs
one batch per subscriber; `self.topo.get_servers()[0]` raises `IndexError`
on a serverless topology; the `oracle` arm raises `NotImplementedError`. -/
def unicastPhase (env : SetupEnv) (installOk : Nat → Bool) (st : SetupSt) :
    SetupSt × Except PyErr Unit :=
  if use_unicast env then
    match env.originalServers.head? with
    | none => (st, Except.error PyErr.indexError)
    | some s0 =>
        (env.subscribers.foldl (fun acc sub => doInstall installOk (unicastRules env s0 sub) acc)
          st, Except.ok ())
  else if env.comparison == some ("oracle") then (st, Except.error PyErr.notImplementedError)
  else (st, Except.ok ())

/-- Line 714: probe source ports `PROBE_BASE_SRC_PORT + i` assigned to the
cloud gateways in their fixed list order. -/
def probe_src_ports (env : SetupEnv) : List Nat :=
  (List.range env.cloud_gateways.length).map (fun i => env.probeBasePort + i)

/-- A UDP-port match pair, `dict(udp_src=a, udp_dst=b)`. -/
def probeMatches (src dst : Nat) : Matches := ⟨some src, some dst, none, none⟩

/-- Swap of the UDP source/destination ports of a match. -/
def swapUdp (m : Matches) : Matches := ⟨m.udp_dst, m.udp_src, m.ipv4_src, m.ipv4_dst⟩

/-- Lines 734-738: the probe route for a gateway is the merge of the
adapter paths server-host → gateway and gateway → cloud-host. -/
def probeRoute (env : SetupEnv) (gw : String) : List String :=
  env.mergePaths (env.adapterPath env.serverHostDpid (env.switchDpid gw))
    (env.adapterPath (env.switchDpid gw) env.cloudHostDpid)

/-- Lines 740-749: forward probe rules on the route matched on
`(udp_src = srcPort, udp_dst = echo)` followed by reverse rules on the
reversed route with the two ports swapped. -/
def probeRules (env : SetupEnv) (gw : String) (srcPort : Nat) : List FlowRule :=
  env.buildFRP (probeRoute env gw) (probeMatches srcPort env.echoPort) env.staticPriority
    ++ env.buildFRP (probeRoute env gw).reverse (probeMatches env.echoPort srcPort)
      env.staticPriority

/-- The RideC section (lines 706-754): when RideC is enabled, one probe-rule
batch per gateway, in gateway order. -/
def rideCPhase (env : SetupEnv) (installOk : Nat → Bool) (st : SetupSt) : SetupSt :=
  if env.with_ride_c then
    (env.cloud_gateways.zip (probe_src_ports env)).foldl
      (fun acc gp => doInstall installOk (probeRules env gp.1 gp.2) acc) st
  else st

/-- The flow rules of one (subscriber, gateway) static route of lines
809-826: the plain topology path gateway → subscriber translated to DPIDs,
with the first cloud switch's DPID prepended, matched on
`(ipv4_src = cloud IP, ipv4_dst = subscriber IP)`. -/
def gwSubRules (env : SetupEnv) (cs0 sub gw : String) : List FlowRule :=
  env.buildFRP (env.nodeDpid cs0 :: (env.topoPath gw sub).map env.nodeDpid)
    ⟨none, none, some env.cloudIP, some (env.subIP sub)⟩ env.staticPriority

/-- The iteration space of the nested loops of lines 809-826: subscribers
outer, gateways inner. -/
def gwSubPairs (env : SetupEnv) : List (String × String) :=
  env.subscribers.flatMap (fun sub => env.cloud_gateways.map (fun gw => (sub, gw)))

/-- The cloud-gateway → subscriber loop; `self.cloud_switches[0]` at line
820 raises `IndexError` when no cloud switch exists. -/
def gwSubPhase (env : SetupEnv) (installOk : Nat → Bool) :
    List (String × String) → SetupSt → SetupSt × Except PyErr Unit
  | [], st => (st, Except.ok ())
  | (sub, gw) :: rest, st =>
      match env.cloud_switches.head? with
      | none => (st, Except.error PyErr.indexError)
      | some cs0 => gwSubPhase env installOk rest (doInstall installOk (gwSubRules env cs0 sub gw) st)

/-- The client launches of lines 850-920: one process per host in
`set(sensors) ∪ set(subscribers)`. -/
def clientLaunches (env : SetupEnv) : List SetupEvent :=
  ((env.sensors ++ env.subscribers).dedup).map SetupEvent.launch

/-- The server launch of line 771 and, when `with_cloud`, the cloud launch
of line 800. -/
def launchSt (env : SetupEnv) (st : SetupSt) : SetupSt :=
  let st2 : SetupSt := ⟨st.events ++ [SetupEvent.launch ("server")], st.nInstalls⟩
  if env.with_cloud then ⟨st2.events ++ [SetupEvent.launch ("cloud")], st2.nInstalls⟩ else st2

/-- The pipeline of `setup_seismic_test` after the comparison configs:
RideC probe routes, server launch (line 771), optional cloud launch (line
800), gateway → subscriber routes, client launches. -/
def setupRest (env : SetupEnv) (installOk : Nat → Bool) (st : SetupSt) :
    List SetupEvent × Except PyErr Unit :=
  let st3 := launchSt env (rideCPhase env installOk st)
  match gwSubPhase env installOk (gwSubPairs env) st3 with
  | (st4, Except.error e) => (st4.events, Except.error e)
  | (st4, Except.ok _) => (st4.events ++ clientLaunches env, Except.ok ())

/-- Embedding of the forwarding-programming and process-launch behaviour of
`setup_seismic_test`: comparison configs followed by `setupRest`.  Returns
the event trace and `ok` unless a Python exception escapes. -/
def setup_seismic_test (env : SetupEnv) (installOk : Nat → Bool) :
    List SetupEvent × Except PyErr Unit :=
  match unicastPhase env installOk ⟨[], 0⟩ with
  | (st, Except.error e) => (st.events, Except.error e)
  | (st, Except.ok _) => setupRest env installOk st

/-- The rule batches passed to `install_flow_rules` along a trace, in
order. -/
def installedBatches (evs : List SetupEvent) : List (List FlowRule) :=
  evs.filterMap (fun ev =>
    match ev with
    | SetupEvent.installBatch rules _ => some rules
    | _ => none)

/-- A trace with the install outcomes and failure logs erased: the work a
run performs independently of REST results. -/
def coreEvents (evs : List SetupEvent) : List SetupEvent :=
  evs.filterMap (fun ev =>
    match ev with
    | SetupEvent.installBatch rules _ => some (SetupEvent.installBatch rules true)
    | SetupEvent.logError => none
    | SetupEvent.launch w => some (SetupEvent.launch w))

/-- Checks that every failed install batch is immediately followed by a
`log.error`. -/
def failuresLogged : List SetupEvent → Bool
  | [] => true
  | SetupEvent.installBatch _ true :: rest => failuresLogged rest
  | SetupEvent.installBatch _ false :: SetupEvent.logError :: rest => failuresLogged rest
  | SetupEvent.installBatch _ false :: _ => false
  | _ :: rest => failuresLogged rest

/-- Number of install batches the comparison-configs section contributes:
one per subscriber when the unicast arm is active, none otherwise. -/
def unicastInstallCount (env : SetupEnv) : Nat :=
  if use_unicast env then env.subscribers.length else 0

/-- Embedding of the constructor's comparison validation (lines 84-88):
`if comparison is not None: assert comparison in ('oracle', 'unicast')`.
Returns whether the assertion passes. -/
def constructorCheck : Option String → Bool
  | none => true
  | some c => c == "oracle" || c == "unicast"

/-- The names of the processes launched along a setup trace, in order. -/
def launchNames (evs : List SetupEvent) : List String :=
  evs.filterMap (fun ev =>
    match ev with
    | SetupEvent.launch w => some w
    | _ => none)

/-- Embedding of `run_experiment` from forwarding programming to the end of
the fault-injection phase: `setup_seismic_test` (line 474) runs first and
its uncaught exceptions propagate before any schedule exists; otherwise the
`data_path_links` property is read (line 495, raising `IndexError` at line
1167 when gateways exist but no cloud switch does) and `sorted(...)[0]` is
dereferenced without a guard (line 497), after which the schedule executes
and the result dict is returned (line 536).  Returns the setup trace, the
fault-phase events, and the outcome. -/
def run_experiment_tail (env : SetupEnv) (installOk : Nat → Bool) (T : Nat) :
    List SetupEvent × List RunEvent × Except PyErr Unit :=
  match setup_seismic_test env installOk with
  | (evs, Except.error e) => (evs, [], Except.error e)
  | (evs, Except.ok _) =>
      match data_path_links env.cloud_gateways env.cloud_switches with
      | Except.error e => (evs, [], Except.error e)
      | Except.ok dps =>
          match data_path_changes dps T with
          | none => (evs, [], Except.error PyErr.indexError)
          | some sched =>
              (evs, [RunEvent.executeSchedule sched, RunEvent.returnResult], Except.ok ())

/-! ### Concrete instances used by witnesses -/

/-- Concrete expectation record used by convergence witnesses. -/
def convE0 : ExpectedCounts := ⟨3, 5, 4, true, true⟩

/-- Concrete adapter-view oracle used by convergence witnesses: iteration 1
is one host short, every later query matches. -/
def convViews0 : Nat → AdapterView := fun n => if n == 1 then ⟨2, 7, 6⟩ else ⟨3, 7, 6⟩

/-- A small concrete setup environment: no comparison, `ntrees = 0` (so the
unicast arm is active), no RideC, no cloud, two subscribers, one sensor host,
one original server, no cloud gateway. -/
def baseEnv : SetupEnv where
  comparison := none
  ntrees := 0
  with_ride_c := false
  with_cloud := false
  subscribers := ["h1", "h2"]
  sensors := ["h3"]
  originalServers := ["s0"]
  cloud_gateways := []
  cloud_switches := ["f0"]
  topoPathW := fun a b => [a, b]
  topoPath := fun a b => [a, b]
  nodeDpid := fun s => s ++ "-d"
  serverHostDpid := "hs0-d"
  cloudHostDpid := "hx0-d"
  switchDpid := fun s => s ++ "-s"
  adapterPath := fun a b => [a, b]
  mergePaths := fun p q => p ++ q.drop 1
  buildFRP := fun p m pr => [⟨p, m, pr⟩]
  subIP := fun s => s ++ "-ip"
  cloudIP := "x0-ip"
  staticPriority := 100
  probeBasePort := 9900
  echoPort := 9999

/-- `baseEnv` with RideC enabled, a non-zero tree count (so the unicast arm
is off) and two cloud gateways. -/
def rideCEnv : SetupEnv :=
  { baseEnv with ntrees := 1, with_ride_c := true, cloud_gateways := ["g0", "g1"] }

/-- `baseEnv` with one cloud gateway and no cloud switch (the emulation of a
`with_cloud = false` run whose topology still has cloud gateways): the
configuration on which `setup_seismic_test` itself raises `IndexError` at
line 820 before any client process is launched. -/
def noCloudSwitchEnv : SetupEnv :=
  { baseEnv with cloud_gateways := ["g0"], cloud_switches := [] }

/-- `baseEnv` with the `oracle` comparison and `ntrees = 0`. -/
def oracleEnv : SetupEnv :=
  { baseEnv with comparison := some ("oracle") }

/-- `baseEnv` with the `oracle` comparison and a non-zero tree count. -/
def oracleEnvN : SetupEnv :=
  { baseEnv with comparison := some ("oracle"), ntrees := 1 }

end RideExp

/-! ## Theorems -/

namespace RideExp

/-- C5: for every `ntrees ≥ 0` the pool is the ordered sequence of length
`ntrees` whose `i`-th element is `(base address + i, base source port + i)`;
within the pool all addresses are pairwise distinct and all source ports are
pairwise distinct. -/
theorem mcast_address_pool_spec (baseAddr basePort ntrees i : Nat) :
    (mcast_address_pool baseAddr basePort ntrees).length = ntrees ∧
    (mcast_address_pool baseAddr basePort ntrees)[i]? =
      (if i < ntrees then some (baseAddr + i, basePort + i) else none) ∧
    ((mcast_address_pool baseAddr basePort ntrees).map Prod.fst).Nodup ∧
    ((mcast_address_pool baseAddr basePort ntrees).map Prod.snd).Nodup := by
  refine ⟨by simp [mcast_address_pool], ?_, ?_, ?_⟩
  · by_cases h : i < ntrees
    · simp [mcast_address_pool, h]
    · have hle : ntrees ≤ i := Nat.le_of_not_lt h
      simp [mcast_address_pool, h, List.getElem?_eq_none, hle]
  · have hmap : ((mcast_address_pool baseAddr basePort ntrees).map Prod.fst) =
        (List.range ntrees).map (fun j => baseAddr + j) := by
      simp [mcast_address_pool, List.map_map, Function.comp]
    rw [hmap]
    exact (List.nodup_range ntrees).map (fun a b hab => by omega)
  · have hmap : ((mcast_address_pool baseAddr basePort ntrees).map Prod.snd) =
        (List.range ntrees).map (fun j => basePort + j) := by
      simp [mcast_address_pool, List.map_map, Function.comp]
    rw [hmap]
    exact (List.nodup_range ntrees).map (fun a b hab => by omega)

lemma sortedDPLinks_sorted (dps : List DataPathLink) :
    (sortedDPLinks dps).Sorted dplLe :=
  List.sorted_insertionSort dplLe dps

lemma sortedDPLinks_perm (dps : List DataPathLink) :
    (sortedDPLinks dps).Perm dps :=
  List.perm_insertionSort dplLe dps

lemma data_path_changes_eq_planned (dps : List DataPathLink) (T : Nat) (h : dps ≠ []) :
    data_path_changes dps T = some (plannedChanges (sortedDPLinks dps) T) := by
  have hne : sortedDPLinks dps ≠ [] := by
    intro hnil
    have hp := sortedDPLinks_perm dps
    rw [hnil] at hp
    exact h hp.symm.eq_nil
  cases hs : sortedDPLinks dps with
  | nil => exact absurd hs hne
  | cons first rest => simp [data_path_changes, hs, plannedChanges]

lemma executeChanges_proj (eps : Nat → Nat) :
    ∀ (cs : List DPChange) (t i : Nat),
      (executeChanges eps cs t i).map (fun r => (r.1, r.2.1))
        = cs.map (fun c => (c.gw, c.status))
  | [], _, _ => rfl
  | c :: rest, t, i => by
      simp only [executeChanges, List.map_cons]
      rw [executeChanges_proj eps rest]

lemma executeChanges_ts_ge (eps : Nat → Nat) :
    ∀ (cs : List DPChange) (t i : Nat) (r : String × String × Nat),
      r ∈ executeChanges eps cs t i → t ≤ r.2.2
  | [], _, _, r, hr => absurd hr (List.not_mem_nil r)
  | c :: rest, t, i, r, hr => by
      rcases List.mem_cons.mp hr with h | h
      · subst h; simp only []; omega
      · have := executeChanges_ts_ge eps rest (t + c.delay + eps i) (i + 1) r h
        omega

lemma executeChanges_chain (eps : Nat → Nat) :
    ∀ (cs : List DPChange) (t i : Nat),
      List.Chain' (· ≤ ·) ((executeChanges eps cs t i).map (fun r => r.2.2))
  | [], _, _ => List.chain'_nil
  | c :: rest, t, i => by
      simp only [executeChanges, List.map_cons]
      refine List.chain'_cons'.mpr ⟨?_, executeChanges_chain eps rest _ _⟩
      intro b hb
      cases he : executeChanges eps rest (t + c.delay + eps i) (i + 1) with
      | nil => rw [he] at hb; simp at hb
      | cons r rs =>
          rw [he] at hb
          simp only [List.map_cons, List.head?_cons, Option.mem_def, Option.some.injEq] at hb
          subst hb
          have hr : r ∈ executeChanges eps rest (t + c.delay + eps i) (i + 1) := by
            rw [he]; exact List.mem_cons_self r rs
          have := executeChanges_ts_ge eps rest _ _ r hr
          omega

lemma data_path_links_ok (gws : List String) (c : String) (cs : List String) :
    data_path_links gws (c :: cs) = Except.ok (gws.map (fun g => (g, c))) := by
  induction gws with
  | nil => rfl
  | cons g rest ih => simp [data_path_links, ih]

/-- C1: for every non-empty data-path link collection, the planned change
list is obtained by sorting the `(gateway, cloud switch)` pairs ascending and
equals `[(dp[0], down, 0)] ++ [(dp[i], down, T) for i = 1..n-1] ++
[(dp[0], up, T)]`; the recorded `data_path_changes` have one
`(gateway, status, timestamp)` entry per planned change, their
`(gateway, status)` projection equals the planned schedule in order, and the
timestamps are monotonically non-decreasing. -/
theorem fault_schedule_spec (dps : List DataPathLink) (T t0 : Nat) (eps : Nat → Nat)
    (h : dps ≠ []) :
    (sortedDPLinks dps).Sorted dplLe ∧
    (sortedDPLinks dps).Perm dps ∧
    data_path_changes dps T = some (plannedChanges (sortedDPLinks dps) T) ∧
    (executeChanges eps (plannedChanges (sortedDPLinks dps) T) t0 0).map (fun r => (r.1, r.2.1))
      = (plannedChanges (sortedDPLinks dps) T).map (fun c => (c.gw, c.status)) ∧
    List.Chain' (· ≤ ·)
      ((executeChanges eps (plannedChanges (sortedDPLinks dps) T) t0 0).map (fun r => r.2.2)) :=
  ⟨sortedDPLinks_sorted dps, sortedDPLinks_perm dps, data_path_changes_eq_planned dps T h,
    executeChanges_proj eps _ t0 0, executeChanges_chain eps _ t0 0⟩

/-- Witness for `fault_schedule_spec` at the two-gateway configuration of
scenario S3. -/
theorem fault_schedule_spec_witness :
    ([("g1", "f0"), ("g0", "f0")] : List DataPathLink) ≠ [] ∧
    ((sortedDPLinks [("g1", "f0"), ("g0", "f0")]).Sorted dplLe ∧
      (sortedDPLinks [("g1", "f0"), ("g0", "f0")]).Perm [("g1", "f0"), ("g0", "f0")] ∧
      data_path_changes [("g1", "f0"), ("g0", "f0")] 4
        = some (plannedChanges (sortedDPLinks [("g1", "f0"), ("g0", "f0")]) 4) ∧
      (executeChanges (fun i => i + 1)
            (plannedChanges (sortedDPLinks [("g1", "f0"), ("g0", "f0")]) 4) 10 0).map
          (fun r => (r.1, r.2.1))
        = (plannedChanges (sortedDPLinks [("g1", "f0"), ("g0", "f0")]) 4).map
            (fun c => (c.gw, c.status)) ∧
      List.Chain' (· ≤ ·)
        ((executeChanges (fun i => i + 1)
            (plannedChanges (sortedDPLinks [("g1", "f0"), ("g0", "f0")]) 4) 10 0).map
          (fun r => r.2.2))) :=
  ⟨by decide, fault_schedule_spec [("g1", "f0"), ("g0", "f0")] 4 10 (fun i => i + 1) (by decide)⟩

lemma convLoop_matched (e : ExpectedCounts) (views : Nat → AdapterView)
    (fuel ntries : Nat) (st : ConvState) (h : stateMatches e st = true) :
    convLoop e views fuel ntries st = ([], true) := by
  cases fuel <;> simp [convLoop, h]

lemma convLoop_zero (e : ExpectedCounts) (views : Nat → AdapterView)
    (ntries : Nat) (st : ConvState) (h : stateMatches e st = false) :
    convLoop e views 0 ntries st = ([], false) := by
  simp [convLoop, h]

lemma convLoop_succ (e : ExpectedCounts) (views : Nat → AdapterView)
    (fuel ntries : Nat) (st : ConvState) (h : stateMatches e st = false) :
    convLoop e views (fuel + 1) ntries st
      = (ConvEvent.query ntries (views ntries) (viewMatches e (views ntries))
          :: ConvEvent.sleep (if viewMatches e (views ntries) then 2 else 10)
          :: ((if ntries % 5 == 0 && !(viewMatches e (views ntries)) then [ConvEvent.ping]
                else [])
            ++ (convLoop e views fuel (ntries + 1)
                ⟨(views ntries).nhosts, (views ntries).nlinks, (views ntries).nswitches⟩).1),
        (convLoop e views fuel (ntries + 1)
          ⟨(views ntries).nhosts, (views ntries).nlinks, (views ntries).nswitches⟩).2) := by
  simp [convLoop, h]

lemma stateMatches_of_view (e : ExpectedCounts) (v : AdapterView) :
    stateMatches e ⟨v.nhosts, v.nlinks, v.nswitches⟩ = viewMatches e v := rfl

lemma convLoop_success_queries (e : ExpectedCounts) (views : Nat → AdapterView) :
    ∀ (fuel ntries : Nat) (st : ConvState), stateMatches e st = false →
      (convLoop e views fuel ntries st).2 = true →
      ∃ q, (queryList (convLoop e views fuel ntries st).1).getLast? = some q ∧
        q.2.2 = true ∧ viewMatches e q.2.1 = true ∧
        ∀ p ∈ (queryList (convLoop e views fuel ntries st).1).dropLast, p.2.2 = false := by
  intro fuel
  induction fuel with
  | zero =>
      intro ntries st hst hconv
      rw [convLoop_zero e views ntries st hst] at hconv
      exact absurd hconv (by simp)
  | succ fuel ih =>
      intro ntries st hst hconv
      rw [convLoop_succ e views fuel ntries st hst] at hconv ⊢
      cases hs : viewMatches e (views ntries) with
      | true =>
          have hr := convLoop_matched e views fuel (ntries + 1)
            ⟨(views ntries).nhosts, (views ntries).nlinks, (views ntries).nswitches⟩
            ((stateMatches_of_view e (views ntries)).trans hs)
          refine ⟨(ntries, views ntries, true), ?_, rfl, hs, ?_⟩
          · simp [hr, hs, queryList]
          · simp [hr, hs, queryList]
      | false =>
          have hst2 : stateMatches e
              ⟨(views ntries).nhosts, (views ntries).nlinks, (views ntries).nswitches⟩
                = false :=
            (stateMatches_of_view e (views ntries)).trans hs
          simp only [hs] at hconv
          obtain ⟨q, hql, hqs, hqv, hqdrop⟩ := ih (ntries + 1)
            ⟨(views ntries).nhosts, (views ntries).nlinks, (views ntries).nswitches⟩ hst2 hconv
          simp only [queryList] at hql hqdrop
          obtain ⟨ys, hys⟩ := List.getLast?_eq_some_iff.mp hql
          rw [hys, List.dropLast_concat] at hqdrop
          refine ⟨q, ?_, hqs, hqv, ?_⟩
          · cases hpg : ntries % 5 == 0 <;>
              · simp [hs, hpg, queryList, hys]
                rw [← List.cons_append]
                exact List.getLast?_concat _
          · intro p hp
            cases hpg : ntries % 5 == 0 <;>
              · simp only [queryList] at hp
                simp only [hs, hpg, List.filterMap_cons, List.filterMap_append,
                  List.filterMap_nil, hys] at hp
                simp at hp
                rw [← List.cons_append, List.dropLast_concat] at hp
                rcases List.mem_cons.mp hp with hbase | hmem
                · rw [hbase]
                · exact hqdrop p hmem

/-- C2: flow programming waits for convergence.  The expected counts are the
emulated hosts excluding the NAT, and the topology-model switch/edge counts
plus one per server and one per cloud (the source tests the truthiness of
the single `self.server` / `self.cloud`, which under the topology invariant
of at most one server and at most one cloud equals adding their counts); the
retry loop exits only on an iteration whose three counts all match, every
earlier iteration has a mismatch, and the flow-install phase comes after the
whole loop. -/
theorem forwarding_waits_for_convergence (e : ExpectedCounts) (views : Nat → AdapterView)
    (fuel : Nat) (servers clouds : List String)
    (hs1 : servers.length ≤ 1) (hc1 : clouds.length ≤ 1)
    (hsp : e.serverPresent = !servers.isEmpty) (hcp : e.cloudPresent = !clouds.isEmpty)
    (hnz : stateMatches e ⟨0, 0, 0⟩ = false) :
    expected_nhosts e = e.nonNatHosts ∧
    expected_nlinks e = e.tmEdges + servers.length + clouds.length ∧
    expected_nswitches e = e.tmSwitches + servers.length + clouds.length ∧
    ∀ tr, runExperimentForwardingTrace e views fuel = some tr →
      ∃ evs q, tr = evs.map RunPhaseEvent.conv ++ [RunPhaseEvent.flowInstallPhase] ∧
        (queryList evs).getLast? = some q ∧ q.2.2 = true ∧
        q.2.1.nhosts = expected_nhosts e ∧ q.2.1.nlinks = expected_nlinks e ∧
        q.2.1.nswitches = expected_nswitches e ∧
        ∀ p ∈ (queryList evs).dropLast, p.2.2 = false := by
  have hserver : (if e.serverPresent then 1 else 0) = servers.length := by
    rcases servers with _ | ⟨a, rest⟩
    · simp at hsp; simp [hsp]
    · rcases rest with _ | ⟨b, rest2⟩
      · simp at hsp; simp [hsp]
      · simp at hs1
  have hcloud : (if e.cloudPresent then 1 else 0) = clouds.length := by
    rcases clouds with _ | ⟨a, rest⟩
    · simp at hcp; simp [hcp]
    · rcases rest with _ | ⟨b, rest2⟩
      · simp at hcp; simp [hcp]
      · simp at hc1
  refine ⟨rfl, ?_, ?_, ?_⟩
  · rw [expected_nlinks, hserver, hcloud]
  · rw [expected_nswitches, hserver, hcloud]
  · intro tr htr
    rw [runExperimentForwardingTrace] at htr
    rcases hconv : runConvergence e views fuel with ⟨evs, done⟩
    rw [hconv] at htr
    cases done with
    | false => simp at htr
    | true =>
        simp only [Option.some.injEq] at htr
        obtain ⟨q, hql, hqs, hqv, hqdrop⟩ :=
          convLoop_success_queries e views fuel 1 ⟨0, 0, 0⟩ hnz
            (by rw [show convLoop e views fuel 1 ⟨0, 0, 0⟩ = (evs, true) from hconv])
        rw [show convLoop e views fuel 1 ⟨0, 0, 0⟩ = (evs, true) from hconv] at hql hqdrop
        refine ⟨evs, q, htr.symm, hql, hqs, ?_, ?_, ?_, hqdrop⟩ <;>
          · have := hqv
            rw [viewMatches] at this
            simp only [Bool.and_eq_true, beq_iff_eq] at this
            tauto

/-- Witness for `forwarding_waits_for_convergence` at a concrete
configuration whose first iteration misses a host. -/
theorem forwarding_waits_for_convergence_witness :
    (["s0"] : List String).length ≤ 1 ∧ (["x0"] : List String).length ≤ 1 ∧
    convE0.serverPresent = !(["s0"] : List String).isEmpty ∧
    convE0.cloudPresent = !(["x0"] : List String).isEmpty ∧
    stateMatches convE0 ⟨0, 0, 0⟩ = false ∧
    (expected_nhosts convE0 = convE0.nonNatHosts ∧
      expected_nlinks convE0
        = convE0.tmEdges + (["s0"] : List String).length + (["x0"] : List String).length ∧
      expected_nswitches convE0
        = convE0.tmSwitches + (["s0"] : List String).length + (["x0"] : List String).length ∧
      ∀ tr, runExperimentForwardingTrace convE0 convViews0 5 = some tr →
        ∃ evs q, tr = evs.map RunPhaseEvent.conv ++ [RunPhaseEvent.flowInstallPhase] ∧
          (queryList evs).getLast? = some q ∧ q.2.2 = true ∧
          q.2.1.nhosts = expected_nhosts convE0 ∧ q.2.1.nlinks = expected_nlinks convE0 ∧
          q.2.1.nswitches = expected_nswitches convE0 ∧
          ∀ p ∈ (queryList evs).dropLast, p.2.2 = false) :=
  ⟨by decide, by decide, by decide, by decide, by decide,
    forwarding_waits_for_convergence convE0 convViews0 5 (["s0"]) (["x0"])
      (by decide) (by decide) (by decide) (by decide) (by decide)⟩

lemma convLoop_zero_fst (e : ExpectedCounts) (views : Nat → AdapterView)
    (ntries : Nat) (st : ConvState) :
    (convLoop e views 0 ntries st).1 = [] := by
  cases h : stateMatches e st <;> simp [convLoop, h]

lemma convLoop_sleep_after_query (e : ExpectedCounts) (views : Nat → AdapterView) :
    ∀ (fuel ntries : Nat) (st : ConvState) (i n : Nat) (v : AdapterView) (s : Bool),
      (convLoop e views fuel ntries st).1[i]? = some (ConvEvent.query n v s) →
      (convLoop e views fuel ntries st).1[i + 1]?
        = some (ConvEvent.sleep (if s then 2 else 10)) := by
  intro fuel
  induction fuel with
  | zero =>
      intro ntries st i n v s h
      rw [convLoop_zero_fst] at h
      simp at h
  | succ fuel ih =>
      intro ntries st i n v s h
      cases hm : stateMatches e st with
      | true =>
          rw [convLoop_matched e views _ _ _ hm] at h
          simp at h
      | false =>
          rw [convLoop_succ e views fuel ntries st hm] at h ⊢
          rcases i with _ | _ | k
          · simp only [List.getElem?_cons_zero, Option.some.injEq, ConvEvent.query.injEq] at h
            obtain ⟨hn, hv, hs⟩ := h
            subst hs
            simp
          · simp at h
          · simp only [List.getElem?_cons_succ] at h ⊢
            by_cases hpp : (ntries % 5 == 0 && !(viewMatches e (views ntries))) = true
            · rw [if_pos hpp] at h ⊢
              simp only [List.singleton_append] at h ⊢
              rcases k with _ | m
              · simp at h
              · simp only [List.getElem?_cons_succ] at h ⊢
                exact ih _ _ m n v s h
            · rw [if_neg hpp] at h ⊢
              simp only [List.nil_append] at h ⊢
              exact ih _ _ k n v s h

lemma convLoop_ping_iff (e : ExpectedCounts) (views : Nat → AdapterView) :
    ∀ (fuel ntries : Nat) (st : ConvState) (j : Nat),
      (convLoop e views fuel ntries st).1[j]? = some ConvEvent.ping ↔
      ∃ i n v, j = i + 2 ∧
        (convLoop e views fuel ntries st).1[i]? = some (ConvEvent.query n v false) ∧
        n % 5 = 0 := by
  intro fuel
  induction fuel with
  | zero =>
      intro ntries st j
      rw [convLoop_zero_fst]
      simp
  | succ fuel ih =>
      intro ntries st j
      cases hm : stateMatches e st with
      | true =>
          rw [convLoop_matched e views _ _ _ hm]
          simp
      | false =>
          rw [convLoop_succ e views fuel ntries st hm]
          by_cases hpp : (ntries % 5 == 0 && !(viewMatches e (views ntries))) = true
          · have hparts : (ntries % 5 == 0) = true
                ∧ (!(viewMatches e (views ntries))) = true := by
              simpa [Bool.and_eq_true] using hpp
            have hs0 : viewMatches e (views ntries) = false := by
              simpa using hparts.2
            have hn5 : ntries % 5 = 0 := by
              simpa using hparts.1
            rw [if_pos hpp]
            simp only [List.singleton_append]
            constructor
            · intro h
              rcases j with _ | _ | _ | m
              · simp at h
              · simp at h
              · exact ⟨0, ntries, views ntries, rfl, by simp [hs0], hn5⟩
              · simp only [List.getElem?_cons_succ] at h
                obtain ⟨i2, n, v, hj, hq, hn⟩ := (ih _ _ m).mp h
                exact ⟨i2 + 3, n, v, by omega, by
                  simp only [List.getElem?_cons_succ]
                  exact hq, hn⟩
            · rintro ⟨i2, n, v, hj, hq, hn⟩
              subst hj
              rcases i2 with _ | _ | _ | m
              · simp
              · simp at hq
              · simp only [List.getElem?_cons_succ, List.getElem?_cons_zero] at hq
                simp at hq
              · simp only [List.getElem?_cons_succ] at hq ⊢
                exact (ih _ _ (m + 2)).mpr ⟨m, n, v, rfl, hq, hn⟩
          · rw [if_neg hpp]
            simp only [List.nil_append]
            constructor
            · intro h
              rcases j with _ | _ | m
              · simp at h
              · simp at h
              · simp only [List.getElem?_cons_succ] at h
                obtain ⟨i2, n, v, hj, hq, hn⟩ := (ih _ _ m).mp h
                exact ⟨i2 + 2, n, v, by omega, by
                  simp only [List.getElem?_cons_succ]
                  exact hq, hn⟩
            · rintro ⟨i2, n, v, hj, hq, hn⟩
              subst hj
              rcases i2 with _ | _ | m
              · simp only [List.getElem?_cons_zero, Option.some.injEq,
                  ConvEvent.query.injEq] at hq
                obtain ⟨hn', hv', hs'⟩ := hq
                refine absurd ?_ hpp
                have h5 : ntries % 5 = 0 := by rw [hn']; exact hn
                simp [hs', h5]
              · simp at hq
              · simp only [List.getElem?_cons_succ] at hq ⊢
                exact (ih _ _ (m + 2)).mpr ⟨m, n, v, rfl, hq, hn⟩

lemma installedBatches_append (a b : List SetupEvent) :
    installedBatches (a ++ b) = installedBatches a ++ installedBatches b := by
  simp [installedBatches]

lemma coreEvents_append (a b : List SetupEvent) :
    coreEvents (a ++ b) = coreEvents a ++ coreEvents b := by
  simp [coreEvents]

lemma installedBatches_doInstall (io : Nat → Bool) (r : List FlowRule) (st : SetupSt) :
    installedBatches (doInstall io r st).events = installedBatches st.events ++ [r] := by
  cases h : io st.nInstalls <;>
    simp [doInstall, h, installedBatches]

lemma coreEvents_doInstall (io : Nat → Bool) (r : List FlowRule) (st : SetupSt) :
    coreEvents (doInstall io r st).events
      = coreEvents st.events ++ [SetupEvent.installBatch r true] := by
  cases h : io st.nInstalls <;>
    simp [doInstall, h, coreEvents]

lemma foldl_doInstall_batches (io : Nat → Bool) {α : Type} (f : α → List FlowRule) :
    ∀ (xs : List α) (st : SetupSt),
      installedBatches ((xs.foldl (fun acc x => doInstall io (f x) acc) st).events)
        = installedBatches st.events ++ xs.map f
  | [], st => by simp
  | x :: xs, st => by
      rw [List.foldl_cons, foldl_doInstall_batches io f xs (doInstall io (f x) st),
        installedBatches_doInstall]
      simp

lemma foldl_doInstall_core (io : Nat → Bool) {α : Type} (f : α → List FlowRule) :
    ∀ (xs : List α) (st : SetupSt),
      coreEvents ((xs.foldl (fun acc x => doInstall io (f x) acc) st).events)
        = coreEvents st.events ++ xs.map (fun x => SetupEvent.installBatch (f x) true)
  | [], st => by simp
  | x :: xs, st => by
      rw [List.foldl_cons, foldl_doInstall_core io f xs (doInstall io (f x) st),
        coreEvents_doInstall]
      simp

lemma foldl_doInstall_events_ext (io : Nat → Bool) {α : Type} (f : α → List FlowRule) :
    ∀ (xs : List α) (st : SetupSt),
      ∃ tl, ((xs.foldl (fun acc x => doInstall io (f x) acc) st).events) = st.events ++ tl
  | [], st => ⟨[], by simp⟩
  | x :: xs, st => by
      obtain ⟨tl, htl⟩ := foldl_doInstall_events_ext io f xs (doInstall io (f x) st)
      rw [List.foldl_cons, htl]
      refine ⟨(SetupEvent.installBatch (f x) (io st.nInstalls)
          :: (if io st.nInstalls then [] else [SetupEvent.logError])) ++ tl, ?_⟩
      simp [doInstall]

lemma failuresLogged_append :
    ∀ (a b : List SetupEvent), failuresLogged a = true → failuresLogged b = true →
      failuresLogged (a ++ b) = true
  | [], _, _, hb => hb
  | SetupEvent.installBatch r true :: rest, b, ha, hb => by
      have ha2 : failuresLogged rest = true := by simpa [failuresLogged] using ha
      simpa [failuresLogged] using failuresLogged_append rest b ha2 hb
  | SetupEvent.installBatch r false :: SetupEvent.logError :: rest, b, ha, hb => by
      have ha2 : failuresLogged rest = true := by simpa [failuresLogged] using ha
      simpa [failuresLogged] using failuresLogged_append rest b ha2 hb
  | SetupEvent.installBatch r false :: [], b, ha, hb => by
      simp [failuresLogged] at ha
  | SetupEvent.installBatch r false :: SetupEvent.installBatch r2 ok2 :: rest, b, ha, hb => by
      simp [failuresLogged] at ha
  | SetupEvent.installBatch r false :: SetupEvent.launch w :: rest, b, ha, hb => by
      simp [failuresLogged] at ha
  | SetupEvent.logError :: rest, b, ha, hb => by
      have ha2 : failuresLogged rest = true := by simpa [failuresLogged] using ha
      simpa [failuresLogged] using failuresLogged_append rest b ha2 hb
  | SetupEvent.launch w :: rest, b, ha, hb => by
      have ha2 : failuresLogged rest = true := by simpa [failuresLogged] using ha
      simpa [failuresLogged] using failuresLogged_append rest b ha2 hb

lemma failuresLogged_doInstall (io : Nat → Bool) (r : List FlowRule) (st : SetupSt)
    (h : failuresLogged st.events = true) :
    failuresLogged (doInstall io r st).events = true := by
  rw [doInstall]
  apply failuresLogged_append _ _ h
  cases hok : io st.nInstalls <;> simp [failuresLogged, hok]

lemma foldl_doInstall_failures (io : Nat → Bool) {α : Type} (f : α → List FlowRule) :
    ∀ (xs : List α) (st : SetupSt), failuresLogged st.events = true →
      failuresLogged ((xs.foldl (fun acc x => doInstall io (f x) acc) st).events) = true
  | [], _, h => h
  | x :: xs, st, h => by
      rw [List.foldl_cons]
      exact foldl_doInstall_failures io f xs _ (failuresLogged_doInstall io (f x) st h)

lemma failuresLogged_launches (ws : List String) :
    failuresLogged (ws.map SetupEvent.launch) = true := by
  induction ws with
  | nil => rfl
  | cons w ws ih => simpa [failuresLogged] using ih

lemma coreEvents_launches (ws : List String) :
    coreEvents (ws.map SetupEvent.launch) = ws.map SetupEvent.launch := by
  induction ws with
  | nil => rfl
  | cons w ws ih => simpa [coreEvents] using ih

lemma installedBatches_launches (ws : List String) :
    installedBatches (ws.map SetupEvent.launch) = [] := by
  induction ws with
  | nil => rfl
  | cons w ws _ => simp [installedBatches]

lemma gwSubPhase_some (env : SetupEnv) (io : Nat → Bool) (cs0 : String)
    (hcs : env.cloud_switches.head? = some cs0) :
    ∀ (pairs : List (String × String)) (st : SetupSt),
      gwSubPhase env io pairs st
        = (pairs.foldl (fun acc p => doInstall io (gwSubRules env cs0 p.1 p.2) acc) st,
            Except.ok ())
  | [], st => by simp [gwSubPhase]
  | (sub, gw) :: rest, st => by
      simp only [gwSubPhase, hcs, List.foldl_cons]
      exact gwSubPhase_some env io cs0 hcs rest _

lemma gwSubPhase_none_nil (env : SetupEnv) (io : Nat → Bool) (st : SetupSt) :
    gwSubPhase env io [] st = (st, Except.ok ()) := by
  simp [gwSubPhase]

lemma gwSubPhase_none_cons (env : SetupEnv) (io : Nat → Bool)
    (hcs : env.cloud_switches.head? = none) (p : String × String)
    (rest : List (String × String)) (st : SetupSt) :
    gwSubPhase env io (p :: rest) st = (st, Except.error PyErr.indexError) := by
  obtain ⟨sub, gw⟩ := p
  simp [gwSubPhase, hcs]

lemma rideCPhase_core (env : SetupEnv) (io : Nat → Bool) (st : SetupSt) :
    coreEvents (rideCPhase env io st).events
      = coreEvents st.events
        ++ (if env.with_ride_c then
              (env.cloud_gateways.zip (probe_src_ports env)).map
                (fun gp => SetupEvent.installBatch (probeRules env gp.1 gp.2) true)
            else []) := by
  cases hrc : env.with_ride_c
  · simp [rideCPhase, hrc]
  · simp only [rideCPhase, hrc, if_true]
    exact foldl_doInstall_core io (fun gp : String × Nat => probeRules env gp.1 gp.2) _ st

lemma rideCPhase_batches (env : SetupEnv) (io : Nat → Bool) (st : SetupSt) :
    installedBatches (rideCPhase env io st).events
      = installedBatches st.events
        ++ (if env.with_ride_c then
              (env.cloud_gateways.zip (probe_src_ports env)).map
                (fun gp => probeRules env gp.1 gp.2)
            else []) := by
  cases hrc : env.with_ride_c
  · simp [rideCPhase, hrc]
  · simp only [rideCPhase, hrc, if_true]
    exact foldl_doInstall_batches io (fun gp : String × Nat => probeRules env gp.1 gp.2) _ st

lemma rideCPhase_failures (env : SetupEnv) (io : Nat → Bool) (st : SetupSt)
    (h : failuresLogged st.events = true) :
    failuresLogged (rideCPhase env io st).events = true := by
  cases hrc : env.with_ride_c
  · simpa [rideCPhase, hrc] using h
  · simp only [rideCPhase, hrc, if_true]
    exact foldl_doInstall_failures io (fun gp : String × Nat => probeRules env gp.1 gp.2) _ st h

lemma launchSt_events (env : SetupEnv) (st : SetupSt) :
    (launchSt env st).events
      = st.events ++ (if env.with_cloud then
          [SetupEvent.launch ("server"), SetupEvent.launch ("cloud")]
        else [SetupEvent.launch ("server")]) := by
  cases hwc : env.with_cloud <;> simp [launchSt, hwc]

lemma launchSt_core (env : SetupEnv) (st : SetupSt) :
    coreEvents (launchSt env st).events
      = coreEvents st.events ++ (if env.with_cloud then
          [SetupEvent.launch ("server"), SetupEvent.launch ("cloud")]
        else [SetupEvent.launch ("server")]) := by
  rw [launchSt_events, coreEvents_append]
  cases hwc : env.with_cloud <;> simp [coreEvents]

lemma launchSt_failures (env : SetupEnv) (st : SetupSt)
    (h : failuresLogged st.events = true) :
    failuresLogged (launchSt env st).events = true := by
  rw [launchSt_events]
  apply failuresLogged_append _ _ h
  cases hwc : env.with_cloud <;> simp [failuresLogged]

lemma failuresLogged_clientLaunches (env : SetupEnv) :
    failuresLogged (clientLaunches env) = true :=
  failuresLogged_launches _

lemma setupRest_spec (env : SetupEnv) (io : Nat → Bool) (st st2 : SetupSt)
    (hcore : coreEvents st.events = coreEvents st2.events)
    (hfail : failuresLogged st.events = true) :
    (setupRest env io st).2 = (setupRest env (fun _ => true) st2).2 ∧
    coreEvents (setupRest env io st).1 = coreEvents (setupRest env (fun _ => true) st2).1 ∧
    failuresLogged (setupRest env io st).1 = true := by
  have hcoreA : coreEvents (launchSt env (rideCPhase env io st)).events
      = coreEvents (launchSt env (rideCPhase env (fun _ => true) st2)).events := by
    rw [launchSt_core, launchSt_core, rideCPhase_core, rideCPhase_core, hcore]
  have hfailA : failuresLogged (launchSt env (rideCPhase env io st)).events = true :=
    launchSt_failures env _ (rideCPhase_failures env io st hfail)
  rcases hcs : env.cloud_switches.head? with _ | cs0
  · rcases hpairs : gwSubPairs env with _ | ⟨p, rest⟩
    · simp only [setupRest, hpairs, gwSubPhase_none_nil]
      refine ⟨by trivial, ?_, ?_⟩
      · rw [coreEvents_append, coreEvents_append, hcoreA]
      · exact failuresLogged_append _ _ hfailA (failuresLogged_clientLaunches env)
    · simp only [setupRest, hpairs, gwSubPhase_none_cons env io hcs,
        gwSubPhase_none_cons env (fun _ => true) hcs]
      exact ⟨by trivial, hcoreA, hfailA⟩
  · have hgw1 := foldl_doInstall_core io (fun p : String × String => gwSubRules env cs0 p.1 p.2)
      (gwSubPairs env) (launchSt env (rideCPhase env io st))
    have hgw2 := foldl_doInstall_core (fun _ => true)
      (fun p : String × String => gwSubRules env cs0 p.1 p.2)
      (gwSubPairs env) (launchSt env (rideCPhase env (fun _ => true) st2))
    simp only [setupRest, gwSubPhase_some env io cs0 hcs,
      gwSubPhase_some env (fun _ => true) cs0 hcs]
    refine ⟨by trivial, ?_, ?_⟩
    · rw [coreEvents_append, coreEvents_append, hgw1, hgw2, hcoreA]
    · exact failuresLogged_append _ _
        (foldl_doInstall_failures io (fun p : String × String => gwSubRules env cs0 p.1 p.2)
          _ _ hfailA)
        (failuresLogged_clientLaunches env)

lemma rideCPhase_events_ext (env : SetupEnv) (io : Nat → Bool) (st : SetupSt) :
    ∃ tl, (rideCPhase env io st).events = st.events ++ tl := by
  cases hrc : env.with_ride_c
  · exact ⟨[], by simp [rideCPhase, hrc]⟩
  · simp only [rideCPhase, hrc, if_true]
    exact foldl_doInstall_events_ext io (fun gp : String × Nat => probeRules env gp.1 gp.2) _ st

lemma gwSubPhase_events_ext (env : SetupEnv) (io : Nat → Bool)
    (pairs : List (String × String)) (st : SetupSt) :
    ∃ tl, (gwSubPhase env io pairs st).1.events = st.events ++ tl := by
  rcases hcs : env.cloud_switches.head? with _ | cs0
  · cases pairs with
    | nil => exact ⟨[], by simp [gwSubPhase_none_nil]⟩
    | cons p rest => exact ⟨[], by simp [gwSubPhase_none_cons env io hcs]⟩
  · rw [gwSubPhase_some env io cs0 hcs]
    exact foldl_doInstall_events_ext io
      (fun p : String × String => gwSubRules env cs0 p.1 p.2) pairs st

lemma setupRest_events_ext (env : SetupEnv) (io : Nat → Bool) (st : SetupSt) :
    ∃ tl, (setupRest env io st).1 = st.events ++ tl := by
  obtain ⟨t1, h1⟩ := rideCPhase_events_ext env io st
  obtain ⟨t2, h2⟩ := gwSubPhase_events_ext env io (gwSubPairs env)
    (launchSt env (rideCPhase env io st))
  have h3 := launchSt_events env (rideCPhase env io st)
  simp only [setupRest]
  rcases hgw : gwSubPhase env io (gwSubPairs env) (launchSt env (rideCPhase env io st))
    with ⟨st4, res⟩
  rw [hgw] at h2
  rw [h3, h1] at h2
  dsimp only at h2
  cases res with
  | error e =>
      refine ⟨t1 ++ ((if env.with_cloud = true then
          [SetupEvent.launch ("server"), SetupEvent.launch ("cloud")]
        else [SetupEvent.launch ("server")]) ++ t2), ?_⟩
      show st4.events = _
      rw [h2]
      simp [List.append_assoc]
  | ok u =>
      refine ⟨t1 ++ ((if env.with_cloud = true then
          [SetupEvent.launch ("server"), SetupEvent.launch ("cloud")]
        else [SetupEvent.launch ("server")]) ++ (t2 ++ clientLaunches env)), ?_⟩
      show st4.events ++ clientLaunches env = _
      rw [h2]
      simp [List.append_assoc]

/-- C6: a false return from a batched `install_flow_rules` call never
aborts the trial: whatever the per-call results, `setup_seismic_test` has
the same outcome and performs the same core work (the same rule batches and
process launches, in the same order) as a run in which every install
succeeds, and every failed install is immediately followed by an error
log. -/
theorem flow_install_failures_never_abort (env : SetupEnv) (io : Nat → Bool) :
    (setup_seismic_test env io).2 = (setup_seismic_test env (fun _ => true)).2 ∧
    coreEvents (setup_seismic_test env io).1
      = coreEvents (setup_seismic_test env (fun _ => true)).1 ∧
    failuresLogged (setup_seismic_test env io).1 = true := by
  cases hu : use_unicast env
  · cases hor : env.comparison == some ("oracle")
    · have h1 : ∀ io2 : Nat → Bool, unicastPhase env io2 ⟨[], 0⟩ = (⟨[], 0⟩, Except.ok ()) := by
        intro io2
        simp [unicastPhase, hu, hor]
      simp only [setup_seismic_test, h1]
      exact setupRest_spec env io ⟨[], 0⟩ ⟨[], 0⟩ rfl rfl
    · have h1 : ∀ io2 : Nat → Bool, unicastPhase env io2 ⟨[], 0⟩
          = (⟨[], 0⟩, Except.error PyErr.notImplementedError) := by
        intro io2
        simp [unicastPhase, hu, hor]
      simp only [setup_seismic_test, h1]
      exact ⟨by trivial, by trivial, by trivial⟩
  · cases hsrv : env.originalServers.head? with
    | none =>
        have h1 : ∀ io2 : Nat → Bool, unicastPhase env io2 ⟨[], 0⟩
            = (⟨[], 0⟩, Except.error PyErr.indexError) := by
          intro io2
          simp [unicastPhase, hu, hsrv]
        simp only [setup_seismic_test, h1]
        exact ⟨by trivial, by trivial, by trivial⟩
    | some s0 =>
        have h1 : ∀ io2 : Nat → Bool, unicastPhase env io2 ⟨[], 0⟩
            = (env.subscribers.foldl
                (fun acc sub => doInstall io2 (unicastRules env s0 sub) acc) ⟨[], 0⟩,
              Except.ok ()) := by
          intro io2
          simp [unicastPhase, hu, hsrv]
        have ha := foldl_doInstall_core io (unicastRules env s0) env.subscribers ⟨[], 0⟩
        have hb := foldl_doInstall_core (fun _ => true) (unicastRules env s0)
          env.subscribers ⟨[], 0⟩
        simp only [setup_seismic_test, h1]
        exact setupRest_spec env io _ _ (by rw [ha, hb])
          (foldl_doInstall_failures io (unicastRules env s0) env.subscribers ⟨[], 0⟩ rfl)

/-- C3: when the unicast comparison arm is active (`comparison == 'unicast'`
or `ntrees == 0`), the first installed batches are, in subscriber order, one
single batch per subscriber whose rules are built from the topology-model
weighted path from the original server to that subscriber, translated
node-by-node to DPIDs with the real server host's DPID prepended, at the
static path-rule priority. -/
theorem unicast_comparison_routes (env : SetupEnv) (io : Nat → Bool) (s0 : String)
    (hu : use_unicast env = true) (hs0 : env.originalServers.head? = some s0) :
    (installedBatches (setup_seismic_test env io).1).take env.subscribers.length
      = env.subscribers.map (unicastRules env s0) ∧
    ∀ sub, unicastRules env s0 sub
      = env.buildFRP (env.serverHostDpid :: (env.topoPathW s0 sub).map env.nodeDpid)
          emptyMatches env.staticPriority := by
  refine ⟨?_, fun sub => rfl⟩
  have h1 : unicastPhase env io ⟨[], 0⟩
      = (env.subscribers.foldl
          (fun acc sub => doInstall io (unicastRules env s0 sub) acc) ⟨[], 0⟩,
        Except.ok ()) := by
    simp [unicastPhase, hu, hs0]
  simp only [setup_seismic_test, h1]
  obtain ⟨tl, htl⟩ := setupRest_events_ext env io
    (env.subscribers.foldl (fun acc sub => doInstall io (unicastRules env s0 sub) acc) ⟨[], 0⟩)
  rw [htl, installedBatches_append,
    foldl_doInstall_batches io (unicastRules env s0) env.subscribers ⟨[], 0⟩]
  simp only [installedBatches, List.filterMap_nil, List.nil_append]
  exact List.take_left' (by simp)

lemma setupRest_events_from_launch (env : SetupEnv) (io : Nat → Bool) (st : SetupSt) :
    ∃ tl, (setupRest env io st).1 = (launchSt env (rideCPhase env io st)).events ++ tl := by
  obtain ⟨t2, h2⟩ := gwSubPhase_events_ext env io (gwSubPairs env)
    (launchSt env (rideCPhase env io st))
  simp only [setupRest]
  rcases hgw : gwSubPhase env io (gwSubPairs env) (launchSt env (rideCPhase env io st))
    with ⟨st4, res⟩
  rw [hgw] at h2
  dsimp only at h2
  cases res with
  | error e =>
      exact ⟨t2, by show st4.events = _; rw [h2]⟩
  | ok u =>
      exact ⟨t2 ++ clientLaunches env, by
        show st4.events ++ clientLaunches env = _
        rw [h2, List.append_assoc]⟩

lemma zip_range_ports_get :
    ∀ (gws : List String) (base i : Nat) (hi : i < gws.length),
      (gws.zip ((List.range gws.length).map (fun k => base + k)))[i]?
        = some (gws.get ⟨i, hi⟩, base + i)
  | [], _, i, hi => absurd hi (by simp)
  | g :: rest, base, 0, _ => by simp
  | g :: rest, base, i + 1, hi => by
      have hi2 : i < rest.length := by simpa using hi
      have hmap : (List.range (g :: rest).length).map (fun k => base + k)
          = base :: (List.range rest.length).map (fun k => (base + 1) + k) := by
        rw [List.length_cons, List.range_succ_eq_map, List.map_cons, List.map_map]
        refine congrArg (fun l => (base + 0) :: l) ?_
        refine List.map_congr_left ?_
        intro k _
        simp [Function.comp]
        omega
      rw [hmap]
      simp only [List.zip_cons_cons, List.getElem?_cons_succ]
      rw [zip_range_ports_get rest (base + 1) i hi2]
      have harith : base + 1 + i = base + (i + 1) := by omega
      rw [harith]
      rfl

/-- C4: when RideC is enabled, the batch installed for the `i`-th cloud
gateway (right after the comparison-config batches) carries the probe source
port `PROBE_BASE_SRC_PORT + i` and consists of the forward rules built from
the merged server → gateway → cloud path matched on
`(udp_src = port, udp_dst = echo)` followed by the reverse rules built from
the reversed path with the `(udp_src, udp_dst)` pair swapped. -/
theorem ridec_probe_rules_symmetric (env : SetupEnv) (io : Nat → Bool) (i : Nat)
    (hrc : env.with_ride_c = true)
    (hsrv : use_unicast env = true → env.originalServers ≠ [])
    (hor : use_unicast env = false → env.comparison ≠ some ("oracle"))
    (hi : i < env.cloud_gateways.length) :
    (installedBatches (setup_seismic_test env io).1)[unicastInstallCount env + i]?
      = some (probeRules env (env.cloud_gateways.get ⟨i, hi⟩) (env.probeBasePort + i)) ∧
    probeRules env (env.cloud_gateways.get ⟨i, hi⟩) (env.probeBasePort + i)
      = env.buildFRP (probeRoute env (env.cloud_gateways.get ⟨i, hi⟩))
          (probeMatches (env.probeBasePort + i) env.echoPort) env.staticPriority
        ++ env.buildFRP (probeRoute env (env.cloud_gateways.get ⟨i, hi⟩)).reverse
            (swapUdp (probeMatches (env.probeBasePort + i) env.echoPort))
            env.staticPriority := by
  refine ⟨?_, rfl⟩
  have hchar : ∃ st0 : SetupSt, unicastPhase env io ⟨[], 0⟩ = (st0, Except.ok ()) ∧
      (installedBatches st0.events).length = unicastInstallCount env := by
    cases hu : use_unicast env
    · have hbeq : (env.comparison == some ("oracle")) = false := by
        have := hor hu
        simpa using this
      exact ⟨⟨[], 0⟩, by simp [unicastPhase, hu, hbeq],
        by simp [unicastInstallCount, hu, installedBatches]⟩
    · obtain ⟨s0, srest, hsr⟩ := List.exists_cons_of_ne_nil (hsrv hu)
      refine ⟨env.subscribers.foldl
          (fun acc sub => doInstall io (unicastRules env s0 sub) acc) ⟨[], 0⟩,
        by simp [unicastPhase, hu, hsr], ?_⟩
      rw [foldl_doInstall_batches io (unicastRules env s0) env.subscribers ⟨[], 0⟩]
      simp [unicastInstallCount, hu, installedBatches]
  obtain ⟨st0, hst0, hlen⟩ := hchar
  simp only [setup_seismic_test, hst0]
  obtain ⟨tl, htl⟩ := setupRest_events_from_launch env io st0
  rw [htl, installedBatches_append, launchSt_events, installedBatches_append,
    rideCPhase_batches env io st0]
  have hIF : installedBatches (if env.with_cloud = true then
      [SetupEvent.launch ("server"), SetupEvent.launch ("cloud")]
    else [SetupEvent.launch ("server")]) = [] := by
    cases env.with_cloud <;> simp [installedBatches]
  rw [hIF, if_pos hrc, List.append_nil]
  have hports : (probe_src_ports env).length = env.cloud_gateways.length := by
    simp [probe_src_ports]
  have hRClen : i < ((env.cloud_gateways.zip (probe_src_ports env)).map
      (fun gp => probeRules env gp.1 gp.2)).length := by
    simp only [List.length_map, List.length_zip, hports, Nat.min_self]
    exact hi
  rw [List.append_assoc]
  rw [List.getElem?_append_right (by omega : (installedBatches st0.events).length
      ≤ unicastInstallCount env + i)]
  have hidx : unicastInstallCount env + i - (installedBatches st0.events).length = i := by
    omega
  rw [hidx]
  rw [List.getElem?_append_left hRClen]
  rw [List.getElem?_map, probe_src_ports,
    zip_range_ports_get env.cloud_gateways env.probeBasePort i hi]
  rfl

/-- C7: in the convergence retry-loop trace, every query whose three counts
all matched is immediately followed by a 2-second sleep, every query with a
mismatch by a 10-second sleep, and a host-discovery re-run (`ping_hosts`)
occurs at a position exactly when the query two positions earlier was
unsuccessful and its 1-based iteration number `ntries` is divisible by 5 —
that is, on every 5th unsuccessful iteration and on no other iteration. -/
theorem convergence_backoff_and_reping (e : ExpectedCounts) (views : Nat → AdapterView)
    (fuel : Nat) :
    (∀ (i n : Nat) (v : AdapterView) (s : Bool),
      (runConvergence e views fuel).1[i]? = some (ConvEvent.query n v s) →
      (runConvergence e views fuel).1[i + 1]?
        = some (ConvEvent.sleep (if s then 2 else 10))) ∧
    (∀ j : Nat,
      (runConvergence e views fuel).1[j]? = some ConvEvent.ping ↔
      ∃ i n v, j = i + 2 ∧
        (runConvergence e views fuel).1[i]? = some (ConvEvent.query n v false) ∧
        n % 5 = 0) :=
  ⟨fun i n v s h => convLoop_sleep_after_query e views fuel 1 ⟨0, 0, 0⟩ i n v s h,
    fun j => convLoop_ping_iff e views fuel 1 ⟨0, 0, 0⟩ j⟩

/-- Witness for `unicast_comparison_routes`: the all-success run on
`baseEnv` (unicast arm active via `ntrees = 0`). -/
theorem unicast_comparison_routes_witness :
    use_unicast baseEnv = true ∧ baseEnv.originalServers.head? = some ("s0") ∧
    ((installedBatches (setup_seismic_test baseEnv (fun _ => true)).1).take
        baseEnv.subscribers.length
      = baseEnv.subscribers.map (unicastRules baseEnv ("s0")) ∧
    ∀ sub, unicastRules baseEnv ("s0") sub
      = baseEnv.buildFRP (baseEnv.serverHostDpid
            :: (baseEnv.topoPathW ("s0") sub).map baseEnv.nodeDpid)
          emptyMatches baseEnv.staticPriority) :=
  ⟨by decide, by decide,
    unicast_comparison_routes baseEnv (fun _ => true) ("s0") (by decide) (by decide)⟩

/-- Witness for `ridec_probe_rules_symmetric` at the second gateway of
`rideCEnv`. -/
theorem ridec_probe_rules_symmetric_witness :
    rideCEnv.with_ride_c = true ∧
    (use_unicast rideCEnv = true → rideCEnv.originalServers ≠ []) ∧
    (use_unicast rideCEnv = false → rideCEnv.comparison ≠ some ("oracle")) ∧
    (1 < rideCEnv.cloud_gateways.length) ∧
    ((installedBatches (setup_seismic_test rideCEnv (fun _ => true)).1)[unicastInstallCount rideCEnv + 1]?
      = some (probeRules rideCEnv (rideCEnv.cloud_gateways.get ⟨1, by decide⟩)
          (rideCEnv.probeBasePort + 1)) ∧
    probeRules rideCEnv (rideCEnv.cloud_gateways.get ⟨1, by decide⟩)
        (rideCEnv.probeBasePort + 1)
      = rideCEnv.buildFRP (probeRoute rideCEnv (rideCEnv.cloud_gateways.get ⟨1, by decide⟩))
          (probeMatches (rideCEnv.probeBasePort + 1) rideCEnv.echoPort) rideCEnv.staticPriority
        ++ rideCEnv.buildFRP
            (probeRoute rideCEnv (rideCEnv.cloud_gateways.get ⟨1, by decide⟩)).reverse
            (swapUdp (probeMatches (rideCEnv.probeBasePort + 1) rideCEnv.echoPort))
            rideCEnv.staticPriority) :=
  ⟨by decide, by decide, by decide, by decide,
    ridec_probe_rules_symmetric rideCEnv (fun _ => true) 1
      (by decide) (by decide) (by decide) (by decide)⟩

/-- C9 counterexample: with `comparison = 'oracle'` but `ntrees = 0` the
source silently takes the unicast arm — `setup_seismic_test` succeeds and
launches the server process instead of failing with the not-implemented
error, refuting the claim as stated. -/
theorem oracle_comparison_counterexample :
    oracleEnv.comparison = some ("oracle") ∧
    (setup_seismic_test oracleEnv (fun _ => true)).2 = Except.ok () ∧
    SetupEvent.launch ("server") ∈ (setup_seismic_test oracleEnv (fun _ => true)).1 ∧
    use_unicast oracleEnv = true := by
  refine ⟨rfl, ?_, ?_, rfl⟩ <;> decide

/-- C9 (amended): when `comparison = 'oracle'` and additionally `ntrees > 0`
(so the unicast arm is not active), setup fails with the not-implemented
error having produced no event — no flow rule is installed and no
application process is launched; and the constructor rejects every supplied
comparison string other than `'oracle'` and `'unicast'`. -/
theorem oracle_comparison_fails_at_setup (env : SetupEnv) (io : Nat → Bool)
    (h1 : env.comparison = some ("oracle")) (h2 : env.ntrees ≠ 0) :
    setup_seismic_test env io = ([], Except.error PyErr.notImplementedError) ∧
    (∀ s : String, s ≠ "oracle" → s ≠ "unicast" → constructorCheck (some s) = false) := by
  constructor
  · have hu : use_unicast env = false := by
      simp [use_unicast, h1, h2]
    have hb : (env.comparison == some ("oracle")) = true := by
      rw [h1]
      rfl
    have hup : unicastPhase env io ⟨[], 0⟩
        = (⟨[], 0⟩, Except.error PyErr.notImplementedError) := by
      simp [unicastPhase, hu, hb]
    simp [setup_seismic_test, hup]
  · intro s hs1 hs2
    have e1 : (s == "oracle") = false := by
      simpa using hs1
    have e2 : (s == "unicast") = false := by
      simpa using hs2
    simp [constructorCheck, e1, e2]

/-- Witness for `oracle_comparison_fails_at_setup` on the concrete
environment `oracleEnvN`. -/
theorem oracle_comparison_fails_at_setup_witness :
    oracleEnvN.comparison = some ("oracle") ∧ oracleEnvN.ntrees ≠ 0 ∧
    (setup_seismic_test oracleEnvN (fun _ => true)
        = ([], Except.error PyErr.notImplementedError) ∧
      (∀ s : String, s ≠ "oracle" → s ≠ "unicast" → constructorCheck (some s) = false)) :=
  ⟨by decide, by decide,
    oracle_comparison_fails_at_setup oracleEnvN (fun _ => true) (by decide) (by decide)⟩

/-- C8: evaluating the cloud section of `setup_topology` with
`with_cloud = false` on a topology holding the single cloud `x0` starting
from an empty network: the host `x0` is added twice (a duplicate), while no
switch and no link is added.  This exhibits the divergence from the claim
that exactly one host (and no duplicate) is added. -/
theorem setupClouds_without_cloud_duplicates_host :
    (setupClouds ⟨[], [], []⟩ (["x0"]) false).hosts.count ("x0") = 2 ∧
    (setupClouds ⟨[], [], []⟩ (["x0"]) false).switches = [] ∧
    (setupClouds ⟨[], [], []⟩ (["x0"]) false).links = [] := by
  refine ⟨?_, rfl, rfl⟩
  decide

lemma launchNames_append (a b : List SetupEvent) :
    launchNames (a ++ b) = launchNames a ++ launchNames b := by
  simp [launchNames]

lemma launchNames_doInstall (io : Nat → Bool) (r : List FlowRule) (st : SetupSt) :
    launchNames (doInstall io r st).events = launchNames st.events := by
  cases h : io st.nInstalls <;> simp [doInstall, h, launchNames]

lemma foldl_doInstall_launchNames (io : Nat → Bool) {α : Type} (f : α → List FlowRule) :
    ∀ (xs : List α) (st : SetupSt),
      launchNames ((xs.foldl (fun acc x => doInstall io (f x) acc) st).events)
        = launchNames st.events
  | [], _ => rfl
  | x :: xs, st => by
      rw [List.foldl_cons, foldl_doInstall_launchNames io f xs (doInstall io (f x) st),
        launchNames_doInstall]

lemma rideCPhase_launchNames (env : SetupEnv) (io : Nat → Bool) (st : SetupSt) :
    launchNames (rideCPhase env io st).events = launchNames st.events := by
  cases hrc : env.with_ride_c
  · simp [rideCPhase, hrc]
  · simp only [rideCPhase, hrc, if_true]
    exact foldl_doInstall_launchNames io (fun gp : String × Nat => probeRules env gp.1 gp.2) _ st

lemma launchSt_launchNames (env : SetupEnv) (st : SetupSt) :
    launchNames (launchSt env st).events
      = launchNames st.events
        ++ (if env.with_cloud then [("server"), ("cloud")] else [("server")]) := by
  rw [launchSt_events, launchNames_append]
  cases hwc : env.with_cloud <;> simp [launchNames]

lemma unicastPhase_ok_char (env : SetupEnv) (io : Nat → Bool)
    (hsrv : use_unicast env = true → env.originalServers ≠ [])
    (hor : use_unicast env = false → env.comparison ≠ some ("oracle")) :
    ∃ st0 : SetupSt, unicastPhase env io ⟨[], 0⟩ = (st0, Except.ok ()) ∧
      launchNames st0.events = [] := by
  cases hu : use_unicast env
  · have hbeq : (env.comparison == some ("oracle")) = false := by
      simpa using hor hu
    exact ⟨⟨[], 0⟩, by simp [unicastPhase, hu, hbeq], rfl⟩
  · obtain ⟨s0, srest, hsr⟩ := List.exists_cons_of_ne_nil (hsrv hu)
    refine ⟨env.subscribers.foldl
        (fun acc sub => doInstall io (unicastRules env s0 sub) acc) ⟨[], 0⟩,
      by simp [unicastPhase, hu, hsr], ?_⟩
    rw [foldl_doInstall_launchNames io (unicastRules env s0) env.subscribers ⟨[], 0⟩]
    rfl

lemma setupRest_ok_of_pairs_nil (env : SetupEnv) (io : Nat → Bool) (st : SetupSt)
    (hp : gwSubPairs env = []) :
    setupRest env io st
      = ((launchSt env (rideCPhase env io st)).events ++ clientLaunches env, Except.ok ()) := by
  simp only [setupRest, hp, gwSubPhase_none_nil]

lemma setupRest_err_of_no_switch (env : SetupEnv) (io : Nat → Bool) (st : SetupSt)
    (hcs : env.cloud_switches.head? = none) (p : String × String)
    (rest : List (String × String)) (hp : gwSubPairs env = p :: rest) :
    setupRest env io st
      = ((launchSt env (rideCPhase env io st)).events, Except.error PyErr.indexError) := by
  simp only [setupRest, hp, gwSubPhase_none_cons env io hcs]

/-- C10 counterexample: with one cloud gateway, at least one subscriber and
no cloud switch — a configuration with zero data-path links that the claim
quantifies over — the uncaught `IndexError` is raised by
`setup_seismic_test` itself (line 820, `self.cloud_switches[0]` in the
gateway → subscriber loop): the run fails with only the server process
launched and no client application process ever started, refuting the
claim's assertion that the error comes after the application processes have
been launched. -/
theorem run_without_cloud_switch_counterexample :
    noCloudSwitchEnv.cloud_gateways ≠ [] ∧ noCloudSwitchEnv.cloud_switches = [] ∧
    noCloudSwitchEnv.subscribers ≠ [] ∧ clientLaunches noCloudSwitchEnv ≠ [] ∧
    (run_experiment_tail noCloudSwitchEnv (fun _ => true) 3).2.2
      = Except.error PyErr.indexError ∧
    (setup_seismic_test noCloudSwitchEnv (fun _ => true)).2
      = Except.error PyErr.indexError ∧
    launchNames (run_experiment_tail noCloudSwitchEnv (fun _ => true) 3).1 = [("server")] := by
  decide

/-- C10 (amended): every configuration with zero data-path links makes the
run raise an uncaught `IndexError` instead of returning a result, and a run
returns a result exactly when at least one cloud gateway and at least one
cloud switch exist.  The error strikes after all application processes
(clients included) have been launched when there is no cloud gateway, or
when gateways exist but there is no subscriber; with gateways and
subscribers but no cloud switch it strikes already inside
`setup_seismic_test` (line 820), when only the server (and optional cloud)
process has been launched and no client process has started. -/
theorem run_requires_gateway_and_cloud_switch (env : SetupEnv) (io : Nat → Bool) (T : Nat)
    (hsrv : use_unicast env = true → env.originalServers ≠ [])
    (hor : use_unicast env = false → env.comparison ≠ some ("oracle")) :
    ((run_experiment_tail env io T).2.2 = Except.error PyErr.indexError
        ↔ (env.cloud_gateways = [] ∨ env.cloud_switches = [])) ∧
    ((run_experiment_tail env io T).2.2 = Except.ok ()
        ↔ (env.cloud_gateways ≠ [] ∧ env.cloud_switches ≠ [])) ∧
    ((env.cloud_gateways = [] ∨ env.cloud_switches = []) →
        RunEvent.returnResult ∉ (run_experiment_tail env io T).2.1) ∧
    ((env.cloud_gateways = [] ∨ env.subscribers = []) →
        (setup_seismic_test env io).2 = Except.ok () ∧
        ∃ pre, (run_experiment_tail env io T).1 = pre ++ clientLaunches env) ∧
    (env.cloud_gateways ≠ [] → env.cloud_switches = [] → env.subscribers ≠ [] →
        (setup_seismic_test env io).2 = Except.error PyErr.indexError ∧
        (run_experiment_tail env io T).2.1 = [] ∧
        launchNames (run_experiment_tail env io T).1
          = (if env.with_cloud then [("server"), ("cloud")] else [("server")])) := by
  obtain ⟨st0, hst0, hln⟩ := unicastPhase_ok_char env io hsrv hor
  have hsetup : setup_seismic_test env io = setupRest env io st0 := by
    simp only [setup_seismic_test, hst0]
  rcases hgs : env.cloud_gateways with _ | ⟨g, grest⟩
  · have hp : gwSubPairs env = [] := by simp [gwSubPairs, hgs]
    have hsetup2 : setup_seismic_test env io
        = ((launchSt env (rideCPhase env io st0)).events ++ clientLaunches env,
            Except.ok ()) := by
      rw [hsetup, setupRest_ok_of_pairs_nil env io st0 hp]
    have hlinks : data_path_links env.cloud_gateways env.cloud_switches = Except.ok [] := by
      rw [hgs]
      rfl
    have hrun : run_experiment_tail env io T
        = ((launchSt env (rideCPhase env io st0)).events ++ clientLaunches env, [],
            Except.error PyErr.indexError) := by
      simp only [run_experiment_tail, hsetup2, hlinks]
      rfl
    refine ⟨?_, ?_, ?_, ?_, ?_⟩
    · simp [hrun]
    · simp [hrun]
    · simp [hrun]
    · intro _
      exact ⟨by rw [hsetup2], ⟨(launchSt env (rideCPhase env io st0)).events, by rw [hrun]⟩⟩
    · intro hne
      exact absurd rfl hne
  · rcases hcsl : env.cloud_switches with _ | ⟨c, crest⟩
    · have hcshead : env.cloud_switches.head? = none := by rw [hcsl]; rfl
      rcases hsub : env.subscribers with _ | ⟨s1, srest⟩
      · have hp : gwSubPairs env = [] := by simp [gwSubPairs, hsub]
        have hsetup2 : setup_seismic_test env io
            = ((launchSt env (rideCPhase env io st0)).events ++ clientLaunches env,
                Except.ok ()) := by
          rw [hsetup, setupRest_ok_of_pairs_nil env io st0 hp]
        have hlinks : data_path_links env.cloud_gateways env.cloud_switches
            = Except.error PyErr.indexError := by
          rw [hgs, hcsl]
          rfl
        have hrun : run_experiment_tail env io T
            = ((launchSt env (rideCPhase env io st0)).events ++ clientLaunches env, [],
                Except.error PyErr.indexError) := by
          simp only [run_experiment_tail, hsetup2, hlinks]
        refine ⟨?_, ?_, ?_, ?_, ?_⟩
        · simp [hrun, hcsl]
        · simp [hrun, hcsl]
        · simp [hrun]
        · intro _
          exact ⟨by rw [hsetup2],
            ⟨(launchSt env (rideCPhase env io st0)).events, by rw [hrun]⟩⟩
        · intro _ _ hne
          exact absurd rfl hne
      · have hpne : gwSubPairs env ≠ [] := by
          simp [gwSubPairs, hsub, hgs]
        obtain ⟨p, rest2, hp2⟩ := List.exists_cons_of_ne_nil hpne
        have hsetup2 : setup_seismic_test env io
            = ((launchSt env (rideCPhase env io st0)).events,
                Except.error PyErr.indexError) := by
          rw [hsetup, setupRest_err_of_no_switch env io st0 hcshead p rest2 hp2]
        have hrun : run_experiment_tail env io T
            = ((launchSt env (rideCPhase env io st0)).events, [],
                Except.error PyErr.indexError) := by
          simp only [run_experiment_tail, hsetup2]
        refine ⟨?_, ?_, ?_, ?_, ?_⟩
        · simp [hrun, hcsl]
        · simp [hrun, hcsl]
        · simp [hrun]
        · intro hdisj
          rcases hdisj with hdisj | hdisj
          · exact absurd hdisj (by simp)
          · exact absurd hdisj (by simp)
        · intro _ _ _
          refine ⟨by rw [hsetup2], by rw [hrun], ?_⟩
          rw [hrun]
          rw [launchSt_launchNames, rideCPhase_launchNames, hln]
          rfl
    · have hcshead : env.cloud_switches.head? = some c := by rw [hcsl]; rfl
      have hrest : setupRest env io st0
          = (((gwSubPairs env).foldl
                (fun acc pr => doInstall io (gwSubRules env c pr.1 pr.2) acc)
                (launchSt env (rideCPhase env io st0))).events ++ clientLaunches env,
              Except.ok ()) := by
        simp only [setupRest, gwSubPhase_some env io c hcshead]
      have hsetup2 := hsetup.trans hrest
      have hlinks : data_path_links env.cloud_gateways env.cloud_switches
          = Except.ok ((g :: grest).map (fun x => (x, c))) := by
        rw [hgs, hcsl]
        exact data_path_links_ok (g :: grest) c crest
      have hch : data_path_changes ((g :: grest).map (fun x => (x, c))) T
          = some (plannedChanges (sortedDPLinks ((g :: grest).map (fun x => (x, c)))) T) :=
        data_path_changes_eq_planned _ T (by simp)
      have hrun : run_experiment_tail env io T
          = (((gwSubPairs env).foldl
                (fun acc pr => doInstall io (gwSubRules env c pr.1 pr.2) acc)
                (launchSt env (rideCPhase env io st0))).events ++ clientLaunches env,
              [RunEvent.executeSchedule
                  (plannedChanges (sortedDPLinks ((g :: grest).map (fun x => (x, c)))) T),
                RunEvent.returnResult],
              Except.ok ()) := by
        simp only [run_experiment_tail, hsetup2, hlinks, hch]
      refine ⟨?_, ?_, ?_, ?_, ?_⟩
      · simp [hrun, hgs, hcsl]
      · simp [hrun, hgs, hcsl]
      · intro hdisj
        rcases hdisj with hdisj | hdisj
        · exact absurd hdisj (by simp)
        · exact absurd hdisj (by simp)
      · intro _
        refine ⟨by rw [hsetup2], ?_⟩
        exact ⟨((gwSubPairs env).foldl
            (fun acc pr => doInstall io (gwSubRules env c pr.1 pr.2) acc)
            (launchSt env (rideCPhase env io st0))).events, by rw [hrun]⟩
      · intro _ hnil _
        exact absurd hnil (by simp)

/-- Witness for `run_requires_gateway_and_cloud_switch` on `baseEnv` (no
cloud gateway: the fault phase raises only after all processes were
launched). -/
theorem run_requires_gateway_and_cloud_switch_witness :
    (use_unicast baseEnv = true → baseEnv.originalServers ≠ []) ∧
    (use_unicast baseEnv = false → baseEnv.comparison ≠ some ("oracle")) ∧
    (((run_experiment_tail baseEnv (fun _ => true) 3).2.2 = Except.error PyErr.indexError
        ↔ (baseEnv.cloud_gateways = [] ∨ baseEnv.cloud_switches = [])) ∧
    ((run_experiment_tail baseEnv (fun _ => true) 3).2.2 = Except.ok ()
        ↔ (baseEnv.cloud_gateways ≠ [] ∧ baseEnv.cloud_switches ≠ [])) ∧
    ((baseEnv.cloud_gateways = [] ∨ baseEnv.cloud_switches = []) →
        RunEvent.returnResult ∉ (run_experiment_tail baseEnv (fun _ => true) 3).2.1) ∧
    ((baseEnv.cloud_gateways = [] ∨ baseEnv.subscribers = []) →
        (setup_seismic_test baseEnv (fun _ => true)).2 = Except.ok () ∧
        ∃ pre, (run_experiment_tail baseEnv (fun _ => true) 3).1
          = pre ++ clientLaunches baseEnv) ∧
    (baseEnv.cloud_gateways ≠ [] → baseEnv.cloud_switches = [] →
        baseEnv.subscribers ≠ [] →
        (setup_seismic_test baseEnv (fun _ => true)).2 = Except.error PyErr.indexError ∧
        (run_experiment_tail baseEnv (fun _ => true) 3).2.1 = [] ∧
        launchNames (run_experiment_tail baseEnv (fun _ => true) 3).1
          = (if baseEnv.with_cloud then [("server"), ("cloud")] else [("server")]))) :=
  ⟨by decide, by decide,
    run_requires_gateway_and_cloud_switch baseEnv (fun _ => true) 3 (by decide) (by decide)⟩

end RideExp
